import Mathlib

/-!
Verification development for a library of external-store hooks.

The library exposes externally mutated values (mouse position, window size,
persisted key/value, ...) through a subscribe/snapshot/notify protocol.
This file gives a shallow embedding of the relevant source functions and
proves, or refutes, the specified properties about them.

Embedding conventions:
* A callback value is identified by its function reference identity, modelled
  as a natural number; `l1 != l2` in the source is identity inequality.
* The singleton mouse-position store of `src/Window/useMousePosition.ts` is a
  record holding the `listeners` array variable and the `currentPosition`
  cache, exactly the two mutable variables of `createMousePositionStore`.
* `emitChange` runs `listeners.forEach(listener => listener())`: the `forEach`
  iterates the array object that the `listeners` variable held when the call
  started; a re-entrant unsubscribe reassigns the variable to a fresh filtered
  array and never mutates the array being iterated.  The embedding therefore
  iterates the list snapshotted at call time while threading the evolving
  store state.
* Object allocation (for reference identity of snapshot objects) is modelled
  by a heap counter: each allocated object carries the allocation id that
  stands for its reference.
-/

namespace HooksLib

/-! ## Mouse position store (`src/Window/useMousePosition.ts`) -/

/-- `interface MousePosition { x: number; y: number }` with integer pixel
coordinates. -/
structure MousePosition where
  x : Int
  y : Int
deriving DecidableEq, Repr

/-- Reference identity of a listener callback. -/
abbrev Listener := Nat

/-- The mutable state of `createMousePositionStore`: the `listeners` array
variable and the `currentPosition` cache variable. -/
structure MouseStore where
  listeners : List Listener
  currentPosition : MousePosition
deriving DecidableEq, Repr

/-- Store state right after `createMousePositionStore()` runs:
`listeners = []`, `currentPosition = { x: 0, y: 0 }`. -/
def initialMouseStore : MouseStore :=
  { listeners := [], currentPosition := { x := 0, y := 0 } }

/-- `subscribe(listener)` body: `listeners.push(listener)`. -/
def subscribe (l : Listener) (s : MouseStore) : MouseStore :=
  { s with listeners := s.listeners ++ [l] }

/-- Body of the closure returned by `subscribe`:
`listeners = listeners.filter((x) => x !== listener)`. -/
def unsubscribe (l : Listener) (s : MouseStore) : MouseStore :=
  { s with listeners := s.listeners.filter (fun x => x != l) }

/-- `getSnapshot: () => currentPosition`. -/
def getSnapshot (s : MouseStore) : MousePosition := s.currentPosition

/-- One record of the notification log: which listener was invoked and which
snapshot value it observed (what `getSnapshot()` returned at that moment). -/
structure NotifyEntry where
  listener : Listener
  observed : MousePosition
deriving DecidableEq, Repr

/-- Effect of invoking one listener callback.  A callback may re-entrantly
call unsubscribe closures; `behav l` lists the listener identities that the
callback `l` unsubscribes when invoked. -/
def runCallback (behav : Listener → List Listener) (l : Listener)
    (s : MouseStore) : MouseStore :=
  (behav l).foldl (fun st t => unsubscribe t st) s

/-- `listeners.forEach((listener) => listener())` over the array object frozen
at call time.  Each visited listener is invoked (and logged with the snapshot
it observes) even if a re-entrant unsubscribe already reassigned the
`listeners` variable, because the reassignment never mutates the array being
iterated. -/
def notifyAll (behav : Listener → List Listener) :
    List Listener → MouseStore → MouseStore × List NotifyEntry
  | [], s => (s, [])
  | l :: rest, s =>
    let entry : NotifyEntry := { listener := l, observed := getSnapshot s }
    let s' := runCallback behav l s
    let result := notifyAll behav rest s'
    (result.1, entry :: result.2)

/-- `emitChange`: iterate the current value of the `listeners` variable. -/
def emitChange (behav : Listener → List Listener) (s : MouseStore) :
    MouseStore × List NotifyEntry :=
  notifyAll behav s.listeners s

/-- `handleMouseMove(event)`: first `currentPosition = { x: event.clientX,
y: event.clientY }`, then `emitChange()`. -/
def handleMouseMove (behav : Listener → List Listener) (cx cy : Int)
    (s : MouseStore) : MouseStore × List NotifyEntry :=
  emitChange behav { s with currentPosition := { x := cx, y := cy } }

/-- Plain listeners that perform no re-entrant unsubscription. -/
def noReentry : Listener → List Listener := fun _ => []

/-- Deliver a sequence of mouse-move events, concatenating the notification
logs. -/
def processEvents (behav : Listener → List Listener) :
    List (Int × Int) → MouseStore → MouseStore × List NotifyEntry
  | [], s => (s, [])
  | (cx, cy) :: rest, s =>
    let step := handleMouseMove behav cx cy s
    let result := processEvents behav rest step.1
    (result.1, step.2 ++ result.2)

/-! ## Reference identity of snapshot objects

JavaScript object literals allocate a fresh object on every evaluation, and
reference equality (the equality `useSyncExternalStore` applies to object
snapshots) compares allocation identities, not contents.  The heap is
modelled by an allocation counter; an `ObjRef` carries the allocation id of
the object together with its payload. -/

/-- An object reference: allocation id plus the object's field contents. -/
structure ObjRef (α : Type) where
  id : Nat
  val : α
deriving DecidableEq, Repr

/-- The allocation state: the next fresh allocation id. -/
structure Heap where
  next : Nat
deriving DecidableEq, Repr

/-- Evaluating an object literal: allocate a fresh object. -/
def allocObj (h : Heap) (a : α) : ObjRef α × Heap :=
  ({ id := h.next, val := a }, { next := h.next + 1 })

/-- Reference equality of two object references (`Object.is` on objects). -/
def refEq (r1 r2 : ObjRef α) : Bool := r1.id == r2.id

/-- The mouse store with the cache held as an object reference:
`currentPosition` stores a reference to the last allocated position object. -/
structure MouseStoreRef where
  listeners : List Listener
  currentPosition : ObjRef MousePosition
deriving DecidableEq, Repr

/-- `getSnapshot: () => currentPosition` returns the stored reference itself;
no allocation happens, so repeated calls return the same reference. -/
def getSnapshotRef (s : MouseStoreRef) : ObjRef MousePosition :=
  s.currentPosition

/-- `handleMouseMove` allocates one fresh `{ x, y }` object and stores its
reference in the cache. -/
def handleMouseMoveRef (cx cy : Int) (s : MouseStoreRef) (h : Heap) :
    MouseStoreRef × Heap :=
  let alloc := allocObj h ({ x := cx, y := cy } : MousePosition)
  ({ s with currentPosition := alloc.1 }, alloc.2)

/-! ## Window size (`useWindowSize`, store-based and effect-based variants) -/

/-- `interface WindowSize { width: number; height: number }`. -/
structure WindowSize where
  width : Int
  height : Int
deriving DecidableEq, Repr

/-- The host window's reported viewport metrics (`window.innerWidth`,
`window.innerHeight`). -/
structure WindowEnv where
  innerWidth : Int
  innerHeight : Int
deriving DecidableEq, Repr

/-- A window that has emitted no events yet; absent any report the adapter
contract fixes the fallback value `{ width: 0, height: 0 }`. -/
def initialWindowEnv : WindowEnv := { innerWidth := 0, innerHeight := 0 }

/-- A resize event reporting a new viewport geometry. -/
def dispatchResize (_w : WindowEnv) (width height : Int) : WindowEnv :=
  { innerWidth := width, innerHeight := height }

/-- Store-based `useWindowSize`'s `getSnapshot`: evaluates the object literal
`{ width: window.innerWidth, height: window.innerHeight }`, allocating a
fresh object on every call. -/
def getSnapshotWindowSize (w : WindowEnv) (h : Heap) :
    ObjRef WindowSize × Heap :=
  allocObj h ({ width := w.innerWidth, height := w.innerHeight } : WindowSize)

/-- The value content of the window-size snapshot, ignoring identity. -/
def windowSizeValue (w : WindowEnv) : WindowSize :=
  { width := w.innerWidth, height := w.innerHeight }

/-- `getServerSnapshot`: the deterministic fallback `{ width: 0, height: 0 }`. -/
def getServerSnapshotWindowSize : WindowSize := { width := 0, height := 0 }

/-- Effect-based `useWindowSize`: `useState` initial value
`{ width: 0, height: 0 }`. -/
def windowSizeInitialState : WindowSize := { width := 0, height := 0 }

/-- Effect-based `useWindowSize`'s `handleResize`: store the window's current
metrics into the state. -/
def handleResize (w : WindowEnv) : WindowSize :=
  { width := w.innerWidth, height := w.innerHeight }

/-! ## Storage-backed value (`useLocalStorageState`, store-based variant)

`localStorage` is a key/value map; the default `serialize`/`deserialize`
pair is the host JSON codec, modelled here on strings (quote-wrapping with
escaping of the quote and backslash characters, which covers every value the
adapter is exercised with). -/

/-- The localStorage contents: an association list of key/value pairs. -/
abbrev Storage := List (String × String)

/-- `localStorage.getItem(key)`. -/
def getItem (st : Storage) (key : String) : Option String :=
  (st.find? (fun p => p.1 == key)).map (fun p => p.2)

/-- `localStorage.setItem(key, value)`: overwrite the binding if present,
otherwise add it. -/
def setItem (st : Storage) (key value : String) : Storage :=
  if (st.find? (fun p => p.1 == key)).isSome then
    st.map (fun p => if p.1 == key then (key, value) else p)
  else
    st ++ [(key, value)]

/-- Escape one character as inside a JSON string literal. -/
def jsonEscapeChar (c : Char) : List Char :=
  if c = '"' then ['\\', '"']
  else if c = '\\' then ['\\', '\\']
  else [c]

/-- `JSON.stringify` on a string value: a quote-wrapped escaped literal. -/
def jsonStringify (s : String) : String :=
  String.mk ('"' :: s.data.foldr (fun c acc => jsonEscapeChar c ++ acc) ['"'])

/-- Unescape the body of a JSON string literal; fails on a dangling escape or
an unescaped quote. -/
def jsonUnescapeChars : List Char → Option (List Char)
  | [] => some []
  | '\\' :: c :: rest =>
    if c = '"' ∨ c = '\\' then (jsonUnescapeChars rest).map (fun t => c :: t)
    else none
  | ['\\'] => none
  | '"' :: _ => none
  | c :: rest => (jsonUnescapeChars rest).map (fun t => c :: t)

/-- `JSON.parse` on an encoded string value: a thrown `SyntaxError` is the
`Except.error` case. -/
def jsonParse (s : String) : Except String String :=
  match s.data with
  | '"' :: rest =>
    match rest.getLast? with
    | some '"' =>
      match jsonUnescapeChars rest.dropLast with
      | some cs => Except.ok (String.mk cs)
      | none => Except.error "invalid escape in JSON string"
    | _ => Except.error "unterminated JSON string"
  | _ => Except.error "not a JSON string"

/-- `defaultValue` may be a plain value or a zero-argument producer, told
apart in the source by `typeof defaultValue === "function"`. -/
inductive DefaultVal (T : Type) where
  | literal (t : T)
  | producer (f : Unit → T)

/-- Resolve the default at read time, invoking a producer. -/
def resolveDefault : DefaultVal T → T
  | DefaultVal.literal t => t
  | DefaultVal.producer f => f ()

/-- `getStorageValue` of the store-based `useLocalStorageState`.  Returns the
value together with the messages written to `console.error`.  The source
guards with JavaScript truthiness (`if (storedValue)`), so a `null` result
and an empty-string result both fall through to the default without invoking
`deserialize`; a `deserialize` exception is caught, reported, and falls
through to the default. -/
def getStorageValue (st : Storage) (key : String)
    (deserialize : String → Except String T) (dflt : DefaultVal T) :
    T × List String :=
  match getItem st key with
  | some storedValue =>
    if storedValue ≠ "" then
      match deserialize storedValue with
      | Except.ok v => (v, [])
      | Except.error _ =>
        (resolveDefault dflt,
          ["Error deserializing value for key " ++ key])
    else (resolveDefault dflt, [])
  | none => (resolveDefault dflt, [])

/-- `setValue(newValue)` with a plain (non-updater) argument:
`localStorage.setItem(key, serialize(valueToStore))` followed by dispatching
the storage event (the notification carries no payload and does not affect
the stored bytes). -/
def setValue (st : Storage) (key : String) (serialize : T → String)
    (v : T) : Storage :=
  setItem st key (serialize v)

/-! ## Helper lemmas about the notification cycle -/

/-- Re-entrant unsubscription never touches the cache. -/
theorem foldl_unsubscribe_currentPosition (ts : List Listener) (s : MouseStore) :
    (ts.foldl (fun st t => unsubscribe t st) s).currentPosition
      = s.currentPosition := by
  induction ts generalizing s with
  | nil => rfl
  | cons t ts ih => simpa using ih (unsubscribe t s)

/-- A listener callback never touches the cache. -/
theorem runCallback_currentPosition (behav : Listener → List Listener)
    (l : Listener) (s : MouseStore) :
    (runCallback behav l s).currentPosition = s.currentPosition :=
  foldl_unsubscribe_currentPosition (behav l) s

/-- The log of one `forEach` pass lists exactly the snapshotted listeners, in
order, regardless of re-entrant unsubscription. -/
theorem notifyAll_log_listeners (behav : Listener → List Listener)
    (snap : List Listener) (s : MouseStore) :
    ((notifyAll behav snap s).2).map NotifyEntry.listener = snap := by
  induction snap generalizing s with
  | nil => rfl
  | cons l rest ih => simp [notifyAll, ih]

/-- Every entry of one `forEach` pass observes the cache value held when the
pass began. -/
theorem notifyAll_observed (behav : Listener → List Listener)
    (snap : List Listener) (s : MouseStore) :
    ∀ e ∈ (notifyAll behav snap s).2, e.observed = s.currentPosition := by
  induction snap generalizing s with
  | nil => intro e he; simp [notifyAll] at he
  | cons l rest ih =>
    intro e he
    simp only [notifyAll, List.mem_cons] at he
    rcases he with rfl | he
    · rfl
    · rw [ih (runCallback behav l s) e he, runCallback_currentPosition]

/-- One `forEach` pass leaves the cache unchanged. -/
theorem notifyAll_currentPosition (behav : Listener → List Listener)
    (snap : List Listener) (s : MouseStore) :
    ((notifyAll behav snap s).1).currentPosition = s.currentPosition := by
  induction snap generalizing s with
  | nil => rfl
  | cons l rest ih =>
    simp [notifyAll, ih, runCallback_currentPosition]

/-- With no re-entrant unsubscription, a notification pass leaves the state
unchanged and logs every snapshotted listener with the current cache value. -/
theorem notifyAll_noReentry (snap : List Listener) (s : MouseStore) :
    notifyAll noReentry snap s
      = (s, snap.map (fun l => { listener := l, observed := s.currentPosition })) := by
  induction snap generalizing s with
  | nil => rfl
  | cons l rest ih => simp [notifyAll, runCallback, noReentry, ih, getSnapshot]

/-- Event delivery with plain listeners never changes the listener set. -/
theorem processEvents_noReentry_listeners (events : List (Int × Int))
    (s : MouseStore) :
    ((processEvents noReentry events s).1).listeners = s.listeners := by
  induction events generalizing s with
  | nil => rfl
  | cons ev rest ih =>
    obtain ⟨cx, cy⟩ := ev
    simpa [processEvents, handleMouseMove, emitChange, notifyAll_noReentry]
      using ih { s with currentPosition := { x := cx, y := cy } }

/-- After a nonempty event sequence the cache holds the last event's payload. -/
theorem processEvents_noReentry_last (events : List (Int × Int)) (cx cy : Int)
    (s : MouseStore) (h : events.getLast? = some (cx, cy)) :
    ((processEvents noReentry events s).1).currentPosition
      = { x := cx, y := cy } := by
  induction events generalizing s with
  | nil => simp at h
  | cons ev rest ih =>
    obtain ⟨a, b⟩ := ev
    cases rest with
    | nil =>
      simp only [List.getLast?_singleton, Option.some.injEq, Prod.mk.injEq] at h
      simp [processEvents, handleMouseMove, emitChange, notifyAll_noReentry,
        h.1, h.2]
    | cons ev2 rest2 =>
      have h' : (ev2 :: rest2).getLast? = some (cx, cy) := by
        rwa [List.getLast?_cons_cons] at h
      simpa [processEvents, handleMouseMove, emitChange, notifyAll_noReentry]
        using ih h' (s := { s with currentPosition := { x := a, y := b } })

/-- With plain listeners, a listener registered throughout receives exactly
one notification per event and per occurrence in the listener set. -/
theorem processEvents_noReentry_count (events : List (Int × Int))
    (s : MouseStore) (l : Listener) :
    (((processEvents noReentry events s).2).map NotifyEntry.listener).count l
      = events.length * s.listeners.count l := by
  induction events generalizing s with
  | nil => simp [processEvents]
  | cons ev rest ih =>
    obtain ⟨a, b⟩ := ev
    have step := ih (s := { s with currentPosition := { x := a, y := b } })
    simp only [processEvents, handleMouseMove, emitChange, notifyAll_noReentry,
      List.map_append, List.count_append, List.map_map, List.length_cons] at step ⊢
    have hmapcomp :
        (NotifyEntry.listener ∘ fun x =>
          (NotifyEntry.mk x { x := a, y := b })) = id := rfl
    rw [hmapcomp, List.map_id, step]
    ring

/-- Removing every occurrence of `l` leaves no occurrence of `l`. -/
theorem count_filter_self (l : Listener) (xs : List Listener) :
    (xs.filter (fun x => x != l)).count l = 0 := by
  simp [List.count_eq_zero, List.mem_filter]

/-- Removing every occurrence of `l` does not change the multiplicity of any
other listener. -/
theorem count_filter_other (l l' : Listener) (hne : l' ≠ l)
    (xs : List Listener) :
    (xs.filter (fun x => x != l)).count l' = xs.count l' := by
  induction xs with
  | nil => rfl
  | cons a xs ih =>
    by_cases h : a = l
    · subst h
      simp [List.filter_cons, List.count_cons, hne, ih]
    · simp [List.filter_cons, List.count_cons, h, ih]

/-! ## Claim theorems -/

/-- A listener whose callback, when invoked, unsubscribes listener 2 (and
otherwise does nothing). -/
def reentrantRemove : Listener → List Listener :=
  fun l => if l == 1 then [2] else []

/-- A store with listeners 1 and 2 registered. -/
def storePair : MouseStore :=
  { listeners := [1, 2], currentPosition := { x := 0, y := 0 } }

/-- C2 counterexample: in a notification cycle over listeners `[1, 2]` where
listener 1's callback unsubscribes listener 2, the state reached right after
listener 1's callback no longer contains listener 2 (removal happened), yet
listener 2 still appears later in that same cycle's invocation log, because
`forEach` iterates the array captured at call time while `unsubscribe` only
reassigns the `listeners` variable to a filtered copy.  This falsifies the
part of the claim stating the removed listener is not invoked later in the
same in-progress iteration. -/
theorem removed_listener_still_invoked_mid_cycle :
    (runCallback reentrantRemove 1 storePair).listeners = [1]
      ∧ ((emitChange reentrantRemove storePair).2).map NotifyEntry.listener
          = [1, 2]
      ∧ ((emitChange reentrantRemove storePair).1).listeners = [1] := by
  decide

/-- C2 (amended): if a listener is unsubscribed from within another
listener's callback during a notification cycle, the remaining listeners are
neither skipped nor invoked twice and nothing throws — the cycle invokes
exactly the listeners registered when it began, once each, in order — and
the removal is effective for every cycle that begins afterwards; however the
removed listener may still be invoked later within the same in-progress
cycle. -/
theorem emitChange_reentrant_unsubscribe_safe
    (behav : Listener → List Listener) (s : MouseStore) :
    ((emitChange behav s).2).map NotifyEntry.listener = s.listeners
      ∧ ∀ l : Listener, l ∉ ((emitChange behav s).1).listeners →
          l ∉ ((emitChange behav (emitChange behav s).1).2).map
                NotifyEntry.listener := by
  refine ⟨notifyAll_log_listeners behav s.listeners s, ?_⟩
  intro l hl
  rw [emitChange, notifyAll_log_listeners]
  exact hl

/-- C2 witness: instantiating the amended theorem on the two-listener store
where listener 1 removes listener 2 mid-cycle. -/
theorem emitChange_reentrant_unsubscribe_safe_witness :
    2 ∉ ((emitChange reentrantRemove
        (emitChange reentrantRemove storePair).1).2).map NotifyEntry.listener :=
  (emitChange_reentrant_unsubscribe_safe reentrantRemove storePair).2 2
    (by decide)

/-- C3: calling the unsubscribe closure twice is observably identical to
calling it once — the second call changes nothing in the store state (in
particular it removes no other listener), every later notification cycle is
identical, and the call is a total function, so nothing is thrown. -/
theorem unsubscribe_idempotent (l : Listener) (s : MouseStore) :
    unsubscribe l (unsubscribe l s) = unsubscribe l s
      ∧ ∀ behav : Listener → List Listener,
          emitChange behav (unsubscribe l (unsubscribe l s))
            = emitChange behav (unsubscribe l s) := by
  have h : unsubscribe l (unsubscribe l s) = unsubscribe l s := by
    simp [unsubscribe, List.filter_filter]
  exact ⟨h, fun behav => by rw [h]⟩

/-- C9 counterexample: passing the same callback reference to `subscribe`
twice stores it twice — so duplicates in the live listener set are possible —
and a single call to either returned unsubscribe closure removes BOTH
registrations, not only the one made by its own `subscribe` call.  This
falsifies both the fresh-identity part and the removes-exactly-one part of
the claim. -/
theorem duplicate_subscribe_unsubscribe_removes_both :
    (subscribe 7 (subscribe 7 initialMouseStore)).listeners = [7, 7]
      ∧ (unsubscribe 7
          (subscribe 7 (subscribe 7 initialMouseStore))).listeners = [] := by
  decide

/-- C9 (amended): `subscribe` appends the raw callback reference, so passing
the same function reference twice yields duplicate entries; the unsubscribe
closure removes every occurrence of that reference (by identity comparison)
and no occurrence of any other listener.  When all callbacks passed to
`subscribe` are pairwise distinct references — as when every call site
supplies a fresh closure — this is exactly "removes the one listener
registered by that subscribe call and no other". -/
theorem subscribe_unsubscribe_by_identity (l l' : Listener) (s : MouseStore)
    (hne : l' ≠ l) :
    (subscribe l s).listeners = s.listeners ++ [l]
      ∧ (unsubscribe l s).listeners.count l = 0
      ∧ (unsubscribe l s).listeners.count l' = s.listeners.count l' :=
  ⟨rfl, count_filter_self l s.listeners, count_filter_other l l' hne s.listeners⟩

/-- C9 witness: the amended theorem at listener 7 versus listener 3 on a
store with listeners `[3, 7]`. -/
theorem subscribe_unsubscribe_by_identity_witness :
    (subscribe 7 { listeners := [3, 7], currentPosition := { x := 0, y := 0 } }).listeners
        = [3, 7] ++ [7]
      ∧ (unsubscribe 7 { listeners := [3, 7], currentPosition := { x := 0, y := 0 } }).listeners.count 7 = 0
      ∧ (unsubscribe 7 { listeners := [3, 7], currentPosition := { x := 0, y := 0 } }).listeners.count 3
          = ([3, 7] : List Listener).count 3 :=
  subscribe_unsubscribe_by_identity 7 3
    { listeners := [3, 7], currentPosition := { x := 0, y := 0 } } (by decide)

/-- C4: `handleMouseMove` writes `{ x: clientX, y: clientY }` into the cache
before `emitChange` runs, so every listener invoked during that notification
cycle observes `getSnapshot()` equal to the new coordinates — never a stale
or partially updated cache — and the cache still holds those coordinates
when the cycle ends. -/
theorem handleMouseMove_observes_updated_cache
    (behav : Listener → List Listener) (cx cy : Int) (s : MouseStore)
    (e : NotifyEntry) (he : e ∈ (handleMouseMove behav cx cy s).2) :
    e.observed = { x := cx, y := cy }
      ∧ getSnapshot (handleMouseMove behav cx cy s).1
          = { x := cx, y := cy } := by
  constructor
  · exact notifyAll_observed behav _ _ e he
  · exact notifyAll_currentPosition behav _ _

/-- C4 witness: a mouse-move to `(7, 8)` on a store holding stale cache
`(1, 2)` with listener 9 registered; listener 9 observes `(7, 8)`. -/
theorem handleMouseMove_observes_updated_cache_witness :
    (NotifyEntry.mk 9 { x := 7, y := 8 }).observed = { x := 7, y := 8 }
      ∧ getSnapshot (handleMouseMove noReentry 7 8
          { listeners := [9], currentPosition := { x := 1, y := 2 } }).1
            = { x := 7, y := 8 } :=
  handleMouseMove_observes_updated_cache noReentry 7 8
    { listeners := [9], currentPosition := { x := 1, y := 2 } }
    (NotifyEntry.mk 9 { x := 7, y := 8 }) (by decide)

/-- C5: after any nonempty sequence of mouse-move events delivered to the
store, the cached value equals the coordinates of the last event, and every
listener registered throughout the sequence (the listener set is
duplicate-free, as each call site registers a fresh callback) is notified at
least once and at most once per event. -/
theorem processEvents_final_value_and_notification_count
    (events : List (Int × Int)) (cx cy : Int) (s : MouseStore) (l : Listener)
    (hlast : events.getLast? = some (cx, cy))
    (hnd : s.listeners.Nodup) (hmem : l ∈ s.listeners) :
    getSnapshot (processEvents noReentry events s).1 = { x := cx, y := cy }
      ∧ 1 ≤ (((processEvents noReentry events s).2).map
              NotifyEntry.listener).count l
      ∧ (((processEvents noReentry events s).2).map
            NotifyEntry.listener).count l ≤ events.length := by
  have hc : s.listeners.count l = 1 := List.count_eq_one_of_mem hnd hmem
  have hcount := processEvents_noReentry_count events s l
  have hlen : 1 ≤ events.length := by
    cases events with
    | nil => simp at hlast
    | cons _ _ => simp
  refine ⟨processEvents_noReentry_last events cx cy s hlast, ?_, ?_⟩
  · rw [hcount, hc, Nat.mul_one]
    exact hlen
  · rw [hcount, hc, Nat.mul_one]

/-- C5 witness: two events `(1, 2)` then `(3, 4)` on a store with the single
listener 5; the final snapshot is `(3, 4)` and listener 5 is notified between
one and two times. -/
theorem processEvents_final_value_and_notification_count_witness :
    getSnapshot (processEvents noReentry [(1, 2), (3, 4)]
        { listeners := [5], currentPosition := { x := 0, y := 0 } }).1
      = { x := 3, y := 4 }
      ∧ 1 ≤ (((processEvents noReentry [(1, 2), (3, 4)]
              { listeners := [5], currentPosition := { x := 0, y := 0 } }).2).map
                NotifyEntry.listener).count 5
      ∧ (((processEvents noReentry [(1, 2), (3, 4)]
            { listeners := [5], currentPosition := { x := 0, y := 0 } }).2).map
              NotifyEntry.listener).count 5 ≤ ([(1, 2), (3, 4)] : List (Int × Int)).length :=
  processEvents_final_value_and_notification_count [(1, 2), (3, 4)] 3 4
    { listeners := [5], currentPosition := { x := 0, y := 0 } } 5
    (by decide) (by decide) (by decide)

/-- C1: evaluation at the failing input.  The mouse-position store's
`getSnapshot` returns the stored reference, so two calls with no intervening
event are reference-equal; but `useWindowSize`'s `getSnapshot` evaluates the
object literal `{ width: window.innerWidth, height: window.innerHeight }` on
every call, so two calls with no intervening resize event return two
distinct allocations — structurally equal but NOT equal by the
caller-declared equality for object snapshots (reference equality).  The
claim's universal statement therefore fails at `useWindowSize`. -/
theorem windowSize_getSnapshot_not_reference_stable :
    refEq
        (getSnapshotRef (MouseStoreRef.mk [] (ObjRef.mk 0 { x := 3, y := 4 })))
        (getSnapshotRef (MouseStoreRef.mk [] (ObjRef.mk 0 { x := 3, y := 4 })))
          = true
      ∧ refEq
          (getSnapshotWindowSize (dispatchResize initialWindowEnv 800 600)
            { next := 1 }).1
          (getSnapshotWindowSize (dispatchResize initialWindowEnv 800 600)
            (getSnapshotWindowSize (dispatchResize initialWindowEnv 800 600)
              { next := 1 }).2).1 = false
      ∧ (getSnapshotWindowSize (dispatchResize initialWindowEnv 800 600)
            { next := 1 }).1.val
          = (getSnapshotWindowSize (dispatchResize initialWindowEnv 800 600)
              (getSnapshotWindowSize (dispatchResize initialWindowEnv 800 600)
                { next := 1 }).2).1.val := by
  decide

/-- C6 counterexample: the entry stored under `"theme"` is the empty string —
a raw entry that exists and on which the default deserializer throws
(`JSON.parse("")` is a syntax error) — yet the read reports nothing: the
JavaScript truthiness guard `if (storedValue)` treats the empty string as
absent, skips the try/catch, and returns the default with an empty
`console.error` log, contradicting the claim's "it reports the failure". -/
theorem corrupt_empty_entry_not_reported :
    getItem [("theme", "")] "theme" = some ""
      ∧ jsonParse "" = Except.error "not a JSON string"
      ∧ getStorageValue [("theme", "")] "theme" jsonParse
          (DefaultVal.literal "light") = ("light", []) :=
  ⟨rfl, rfl, rfl⟩

/-- C6 (amended): if a stored raw entry exists and `deserialize` fails on it,
the read never propagates the exception and returns the default value
(invoking it when it is a zero-argument producer); the failure is reported
exactly when the stored raw entry is non-empty — an empty stored entry is
treated as absent by the truthiness guard, so deserialization is never
attempted and nothing is reported. -/
theorem getStorageValue_deserialize_failure_falls_back {T : Type}
    (st : Storage) (key raw err : String)
    (deserialize : String → Except String T) (dflt : DefaultVal T)
    (hget : getItem st key = some raw)
    (herr : deserialize raw = Except.error err) :
    (getStorageValue st key deserialize dflt).1 = resolveDefault dflt
      ∧ ((getStorageValue st key deserialize dflt).2 ≠ [] ↔ raw ≠ "") := by
  unfold getStorageValue
  rw [hget]
  by_cases hraw : raw = ""
  · subst hraw
    simp
  · simp [hraw, herr]

/-- C6 witness: a non-decodable non-empty entry `"bad"` under key `"k"` with
a producer default; the read returns the produced fallback and reports the
failure. -/
theorem getStorageValue_deserialize_failure_falls_back_witness :
    (getStorageValue [("k", "bad")] "k" jsonParse
        (DefaultVal.producer (fun _ => "fallback"))).1
      = resolveDefault (DefaultVal.producer (fun _ => "fallback"))
      ∧ ((getStorageValue [("k", "bad")] "k" jsonParse
          (DefaultVal.producer (fun _ => "fallback"))).2 ≠ []
        ↔ ("bad" : String) ≠ "") :=
  getStorageValue_deserialize_failure_falls_back [("k", "bad")] "k" "bad"
    "not a JSON string" jsonParse (DefaultVal.producer (fun _ => "fallback"))
    rfl rfl

/-- C7: with key `"theme"`, default `"light"`, and the default
serialize/deserialize pair: a read with no stored entry returns `"light"`;
after `setValue("dark")` a read returns `"dark"`, the raw entry persisted
under `"theme"` equals the canonical encoding of `"dark"`, and the written
value round-trips through the codec. -/
theorem theme_roundtrip :
    (getStorageValue [] "theme" jsonParse (DefaultVal.literal "light")).1
        = "light"
      ∧ (getStorageValue (setValue [] "theme" jsonStringify "dark") "theme"
          jsonParse (DefaultVal.literal "light")).1 = "dark"
      ∧ getItem (setValue [] "theme" jsonStringify "dark") "theme"
          = some (jsonStringify "dark")
      ∧ jsonParse (jsonStringify "dark") = Except.ok "dark" :=
  ⟨rfl, rfl, rfl, rfl⟩

/-- C8: the viewport-size adapter with no prior resize events reads
`{ width: 0, height: 0 }` — that is the effect-based variant's initial state,
the store-based variant's server snapshot, and the snapshot of the
pristine window environment — and after a resize event reporting 800 by 600
a subsequent read returns exactly `{ width: 800, height: 600 }` in both
variants. -/
theorem windowSize_initial_and_after_resize :
    windowSizeValue initialWindowEnv = { width := 0, height := 0 }
      ∧ getServerSnapshotWindowSize = { width := 0, height := 0 }
      ∧ windowSizeInitialState = { width := 0, height := 0 }
      ∧ windowSizeValue (dispatchResize initialWindowEnv 800 600)
          = { width := 800, height := 600 }
      ∧ handleResize (dispatchResize initialWindowEnv 800 600)
          = { width := 800, height := 600 }
      ∧ (getSnapshotWindowSize (dispatchResize initialWindowEnv 800 600)
            { next := 0 }).1.val = { width := 800, height := 600 } :=
  ⟨rfl, rfl, rfl, rfl, rfl, rfl⟩

end HooksLib
